import Mathlib

/-!
# A model of the NeXus C++ File API (NeXusFile.hpp)

This development embeds the access/navigation layer declared in
`NeXusFile.hpp`: a stateful handle over a hierarchical container of
groups and typed multi-dimensional datasets.  The header declares the
interface only; the behavior of each operation is modelled from the
specification of the access contract (navigation state machine, typed
data I/O, slab I/O on extendible datasets, link identity, and the
type-map tree walk).

Modelling conventions:
* element values are rationals (`Rat`); integer-typed datasets hold
  values with denominator one, so integer round-trips are exact and
  float values are preserved without intermediate coercion;
* offsets, sizes and extents are naturals;
* slab I/O is modelled for rank-1 (1-D) datasets, matching the scalar
  `putSlab(data, start, size)` overload of the header;
* fallible operations return `Except NXerror`.
-/

namespace NeXus

/-- The primitive types published by the API (enum `NXnumtype` in the header). -/
inductive NXnumtype where
  | FLOAT32
  | FLOAT64
  | INT8
  | UINT8
  | INT16
  | UINT16
  | INT32
  | UINT32
  | INT64
  | UINT64
  | CHAR
  | BINARY
deriving DecidableEq, Repr

/-- Modelled from the spec: the error kinds of the error-handling design
(section 7 of the access contract); the header's implementation is not in
the repository, so failures are represented by this closed enumeration. -/
inductive NXerror where
  | OpenError
  | NotFound
  | NameConflict
  | TypeMismatch
  | RankMismatch
  | RangeError
  | InvalidDimensions
  | InvalidState
  | NotExtendible
  | CoercionError
  | UnsupportedType
deriving DecidableEq, Repr

/-- Modelled from the spec: the storage-type name used as the key of the
type map (an association from storage-type name to dataset paths). -/
def typeName : NXnumtype → String
  | .FLOAT32 => "FLOAT32"
  | .FLOAT64 => "FLOAT64"
  | .INT8 => "INT8"
  | .UINT8 => "UINT8"
  | .INT16 => "INT16"
  | .UINT16 => "UINT16"
  | .INT32 => "INT32"
  | .UINT32 => "UINT32"
  | .INT64 => "INT64"
  | .UINT64 => "UINT64"
  | .CHAR => "CHAR"
  | .BINARY => "BINARY"

/-- Whether a storage type is one of the integer types of 32 bits or
fewer (the types for which `isDataInt` answers true). -/
def intTypeAtMost32 : NXnumtype → Bool
  | .INT8 => true
  | .UINT8 => true
  | .INT16 => true
  | .UINT16 => true
  | .INT32 => true
  | .UINT32 => true
  | _ => false

mutual
/-- Modelled from the spec: a node of the hierarchical container — either a
class-tagged group holding named children, or a dataset with a primitive
storage type, an extendibility flag for its unlimited axis, current
extents, and flattened element values (the implementation behind the
header is not in the repository). -/
inductive Node where
  | group (classTag : String) (children : Children)
  | data (dtype : NXnumtype) (unlimited : Bool) (dims : List Nat) (values : List Rat)

/-- The ordered children of a group: a list of (name, node) bindings. -/
inductive Children where
  | nil
  | cons (name : String) (node : Node) (rest : Children)
end

/-- Look a named child up in a group's child list (first match). -/
def findChild : Children → String → Option Node
  | .nil, _ => none
  | .cons nm nd rest, target => if nm = target then some nd else findChild rest target

/-- Whether a group's child list binds the given name. -/
def hasChild (cs : Children) (target : String) : Bool :=
  (findChild cs target).isSome

/-- Append a new named child at the end of a child list. -/
def appendChild : Children → String → Node → Children
  | .nil, nm, nd => .cons nm nd .nil
  | .cons nm0 nd0 rest, nm, nd => .cons nm0 nd0 (appendChild rest nm nd)

/-- Replace the node bound to the first occurrence of a name. -/
def replaceChild : Children → String → Node → Children
  | .nil, _, _ => .nil
  | .cons nm0 nd0 rest, target, nd =>
    if nm0 = target then .cons nm0 nd rest
    else .cons nm0 nd0 (replaceChild rest target nd)

/-- The class tag reported by child enumeration: a group reports its own
class tag, a dataset reports the dataset tag "SDS". -/
def entryClass : Node → String
  | .group c _ => c
  | .data _ _ _ _ => "SDS"

/-- The ordered (name, classTag) directory listing of a child list. -/
def entriesOf : Children → List (String × String)
  | .nil => []
  | .cons nm nd rest => (nm, entryClass nd) :: entriesOf rest

/-- Resolve a sequence of group names from a node downwards. -/
def lookupPath : List String → Node → Option Node
  | [], n => some n
  | g :: rest, .group _ cs =>
    match findChild cs g with
    | some child => lookupPath rest child
    | none => none
  | _ :: _, .data _ _ _ _ => none

/-- Apply a fallible modification to the node at the given path, rebuilding
the tree along the way; fails with `NotFound` when the path does not
resolve. -/
def modifyNodeAt : List String → (Node → Except NXerror Node) → Node → Except NXerror Node
  | [], f, n => f n
  | g :: rest, f, .group c cs =>
    match findChild cs g with
    | none => .error .NotFound
    | some child =>
      match modifyNodeAt rest f child with
      | .error e => .error e
      | .ok child2 => .ok (.group c (replaceChild cs g child2))
  | _ :: _, _, .data _ _ _ _ => .error .NotFound

/-- Insert a fresh named child under the group at the given path; fails
with `NameConflict` when a sibling of that name exists. -/
def insertChildAt (p : List String) (root : Node) (name : String) (nn : Node) :
    Except NXerror Node :=
  modifyNodeAt p
    (fun n =>
      match n with
      | .group c cs =>
        if hasChild cs name then .error .NameConflict
        else .ok (.group c (appendChild cs name nn))
      | .data _ _ _ _ => .error .NotFound)
    root

/-- Modelled from the spec: the state of a `File` handle (class `File` in
the header declares only `m_file_id` and `m_close_handle`; the backend
position state it manipulates is modelled explicitly): the container's
tree, the current group path, the optionally open dataset, and the cursor
of the pending child enumeration. -/
structure FileState where
  root : Node
  cwd : List String
  openDataName : Option String
  dirIndex : Nat

/-- Modelled from the spec: opening the container places the handle at the
root group with no dataset open. -/
def openFile (root : Node) : FileState :=
  { root := root, cwd := [], openDataName := none, dirIndex := 0 }

/-- The group node the handle is currently positioned at. -/
def currentGroup (s : FileState) : Option Node :=
  lookupPath s.cwd s.root

/-- The node of the currently open dataset, when one is open and resolves. -/
def openDatasetNode (s : FileState) : Option Node :=
  match s.openDataName with
  | none => none
  | some nm =>
    match currentGroup s with
    | some (.group _ cs) => findChild cs nm
    | _ => none

/-- Modelled from the spec: `getPath()` reconstructs the current absolute
slash-delimited path live, including the open dataset's name when one is
open. -/
def getPath (s : FileState) : String :=
  "/" ++ String.intercalate "/" (s.cwd ++ s.openDataName.toList)

/-- Modelled from the spec: `isDataSetOpen()` reports whether the handle is
currently in an open dataset. -/
def isDataSetOpen (s : FileState) : Bool :=
  s.openDataName.isSome

/-- Modelled from the spec: `makeGroup(name, classTag, openAfter)` creates a
child group under the current group; fails with `NameConflict` on a
sibling of that name and `InvalidState` while a dataset is open. -/
def makeGroup (s : FileState) (name classTag : String) (openAfter : Bool) :
    Except NXerror FileState :=
  if s.openDataName.isSome then .error .InvalidState
  else
    match insertChildAt s.cwd s.root name (.group classTag .nil) with
    | .error e => .error e
    | .ok r =>
      .ok { s with
            root := r
            cwd := (if openAfter then s.cwd ++ [name] else s.cwd)
            dirIndex := 0 }

/-- Modelled from the spec: `openGroup(name, classTag)` descends into a
child group; `NotFound` when absent, `TypeMismatch` when the name is a
dataset or the class tag differs. -/
def openGroup (s : FileState) (name classTag : String) : Except NXerror FileState :=
  match currentGroup s with
  | some (.group _ cs) =>
    match findChild cs name with
    | some (.group c _) =>
      if c = classTag then .ok { s with cwd := s.cwd ++ [name], dirIndex := 0 }
      else .error .TypeMismatch
    | some (.data _ _ _ _) => .error .TypeMismatch
    | none => .error .NotFound
  | _ => .error .NotFound

/-- Modelled from the spec: `closeGroup()` pops to the parent group; fails
with `InvalidState` at the root or while a dataset is open. -/
def closeGroup (s : FileState) : Except NXerror FileState :=
  if s.openDataName.isSome then .error .InvalidState
  else if s.cwd = [] then .error .InvalidState
  else .ok { s with cwd := s.cwd.dropLast, dirIndex := 0 }

/-- Modelled from the spec: `openData(name)` opens a dataset child of the
current group; only one dataset may be open at a time per handle. -/
def openData (s : FileState) (name : String) : Except NXerror FileState :=
  if s.openDataName.isSome then .error .InvalidState
  else
    match currentGroup s with
    | some (.group _ cs) =>
      match findChild cs name with
      | some (.data _ _ _ _) => .ok { s with openDataName := some name }
      | some (.group _ _) => .error .TypeMismatch
      | none => .error .NotFound
    | _ => .error .NotFound

/-- Modelled from the spec: `closeData()` closes the currently open
dataset; fails with `InvalidState` when none is open. -/
def closeData (s : FileState) : Except NXerror FileState :=
  match s.openDataName with
  | none => .error .InvalidState
  | some _ => .ok { s with openDataName := none }

/-- Modelled from the spec: `writeData(name, value, dims)` composes
create + open + whole-array write + close of a (non-extendible) dataset
under the current group; the net effect on the handle is the tree update. -/
def writeData (s : FileState) (name : String) (t : NXnumtype)
    (values : List Rat) (dims : List Nat) : Except NXerror FileState :=
  if s.openDataName.isSome then .error .InvalidState
  else
    match insertChildAt s.cwd s.root name (.data t false dims values) with
    | .error e => .error e
    | .ok r => .ok { s with root := r }

/-- Modelled from the spec: `writeExtendibleData(name, value)` is
`writeData` with the dataset's first dimension marked unlimited. -/
def writeExtendibleData (s : FileState) (name : String) (t : NXnumtype)
    (values : List Rat) : Except NXerror FileState :=
  if s.openDataName.isSome then .error .InvalidState
  else
    match insertChildAt s.cwd s.root name (.data t true [values.length] values) with
    | .error e => .error e
    | .ok r => .ok { s with root := r }

/-- Modelled from the spec: `getData()` reads the whole value of the
currently open dataset. -/
def getData (s : FileState) : Except NXerror (List Rat) :=
  match openDatasetNode s with
  | some (.data _ _ _ values) => .ok values
  | _ => .error .InvalidState

/-- Pad a value list with the default fill value 0 up to the given length. -/
def padTo (n : Nat) (xs : List Rat) : List Rat :=
  xs ++ List.replicate (n - xs.length) 0

/-- Overwrite the elements of `xs` starting at offset `st` with `vals`. -/
def writeRange (xs : List Rat) (st : Nat) (vals : List Rat) : List Rat :=
  xs.take st ++ vals ++ xs.drop (st + vals.length)

/-- Modelled from the spec: the slab write on a dataset node (rank-1, as in
the scalar `putSlab(data, start, size)` overload): writing inside the
current extent overwrites in place; writing past the end grows the dataset
when its axis is unlimited, filling any gap with the default value, and
fails with `RangeError` otherwise. -/
def putSlabNode (vals : List Rat) (st sz : Nat) : Node → Except NXerror Node
  | .group _ _ => .error .InvalidState
  | .data t unlimited dims values =>
    if st + sz ≤ values.length then
      .ok (.data t unlimited dims (writeRange values st (vals.take sz)))
    else if unlimited then
      .ok (.data t unlimited [st + sz] (writeRange (padTo (st + sz) values) st (vals.take sz)))
    else .error .RangeError

/-- Modelled from the spec: `putSlab(data, start, size)` on the handle:
requires an open dataset and applies the slab write to it in the tree. -/
def putSlab (s : FileState) (vals : List Rat) (st sz : Nat) :
    Except NXerror FileState :=
  match s.openDataName with
  | none => .error .InvalidState
  | some nm =>
    match modifyNodeAt (s.cwd ++ [nm]) (putSlabNode vals st sz) s.root with
    | .error e => .error e
    | .ok r => .ok { s with root := r }

/-- Modelled from the spec: `getSlab(data, start, size)` reads a contiguous
sub-range of the open dataset; `RangeError` past the current extent. -/
def getSlab (s : FileState) (st sz : Nat) : Except NXerror (List Rat) :=
  match openDatasetNode s with
  | some (.data _ _ _ values) =>
    if st + sz ≤ values.length then .ok ((values.drop st).take sz)
    else .error .RangeError
  | _ => .error .InvalidState

/-- Modelled from the spec: `isDataInt()` reports whether the open
dataset's storage type is an integer type of 32 bits or fewer. -/
def isDataInt (s : FileState) : Except NXerror Bool :=
  match openDatasetNode s with
  | some (.data t _ _ _) => .ok (intTypeAtMost32 t)
  | _ => .error .InvalidState

/-- Modelled from the spec: `getDataCoerce(intVector)` reads the open
dataset coerced to ints; it fails with `CoercionError` unless the storage
type is an integer type of 32 bits or fewer (the types for which the
conversion is lossless); integer-typed values are stored with denominator
one, so taking the numerator is the exact conversion. -/
def getDataCoerceInt (s : FileState) : Except NXerror (List Int) :=
  match openDatasetNode s with
  | some (.data t _ _ values) =>
    if intTypeAtMost32 t then .ok (values.map (fun q => q.num))
    else .error .CoercionError
  | _ => .error .InvalidState

/-- The rational carrying an integer value (integer-typed datasets store
their elements through this embedding, with denominator one). -/
def intVal (i : Int) : Rat := (i : Rat)

/-- An opaque link identity token (`NXlink`): the target's full path plus
the kind of entity linked (group or dataset). -/
structure NXlink where
  targetPath : String
  linkType : Nat
deriving DecidableEq, Repr

/-- Modelled from the spec: `sameID(a, b)` is structural equality of two
link tokens. -/
def sameID (a b : NXlink) : Bool :=
  decide (a.targetPath = b.targetPath) && decide (a.linkType = b.linkType)

/-- Modelled from the spec: `getDataID()` produces the identity token of
the currently open dataset (its full path, tagged as a dataset link). -/
def getDataID (s : FileState) : Except NXerror NXlink :=
  match s.openDataName with
  | none => .error .InvalidState
  | some _ => .ok { targetPath := getPath s, linkType := 1 }

/-- Modelled from the spec: `getGroupID()` produces the identity token of
the current group. -/
def getGroupID (s : FileState) : Except NXerror NXlink :=
  match s.openDataName with
  | some _ => .error .InvalidState
  | none => .ok { targetPath := getPath s, linkType := 0 }

/-- The directory listing of the current group, when the position resolves
to a group. -/
def childEntries (s : FileState) : Option (List (String × String)) :=
  match currentGroup s with
  | some (.group _ cs) => some (entriesOf cs)
  | _ => none

/-- Modelled from the spec: `getNextEntry()` yields the next (name,
classTag) pair of the pending child enumeration and advances the cursor,
or signals exhaustion with `none`. -/
def getNextEntry (s : FileState) :
    Except NXerror (Option (String × String) × FileState) :=
  match childEntries s with
  | none => .error .InvalidState
  | some es =>
    match es[s.dirIndex]? with
    | some e => .ok (some e, { s with dirIndex := s.dirIndex + 1 })
    | none => .ok (none, s)

/-- Modelled from the spec: `initGroupDir()` restarts the pending child
enumeration of the current group. -/
def initGroupDir (s : FileState) : FileState :=
  { s with dirIndex := 0 }

/-- Enumerate the current group's children to exhaustion by repeated
`getNextEntry` calls, with a fuel bound on the number of calls. -/
def enumAll : Nat → FileState → List (String × String) × FileState
  | 0, s => ([], s)
  | fuel + 1, s =>
    match getNextEntry s with
    | .error _ => ([], s)
    | .ok (none, s1) => ([], s1)
    | .ok (some e, s1) =>
      match enumAll fuel s1 with
      | (l, s2) => (e :: l, s2)

/-- Modelled from the spec: joining a path with a child segment, keeping
paths slash-delimited with a single root slash. -/
def makeCurrentPath (currpath subpath : String) : String :=
  if currpath = "/" then currpath ++ subpath
  else currpath ++ "/" ++ subpath

mutual
/-- Modelled from the spec: `walkFileForTypeMap(path, classTag, map)`
walks the sub-tree in recursive pre-order; a dataset contributes the pair
(storage-type name, full path); a group contributes its children's walks. -/
def walkFileForTypeMap (path : String) : Node → List (String × String)
  | .data t _ _ _ => [(typeName t, path)]
  | .group _ cs => walkChildrenForTypeMap path cs

/-- The walk over a group's children, in order, recursing into every child
regardless of its class tag. -/
def walkChildrenForTypeMap (path : String) : Children → List (String × String)
  | .nil => []
  | .cons nm nd rest =>
    walkFileForTypeMap (makeCurrentPath path nm) nd ++ walkChildrenForTypeMap path rest
end

/-- Modelled from the spec: `getTypeMap()` builds the multi-valued
association from storage-type name to dataset path by walking the whole
tree from the root. -/
def getTypeMap (root : Node) : List (String × String) :=
  walkFileForTypeMap "/" root

/-- Modelled from the spec: the ownership part of a `File` (fields
`m_file_id` and `m_close_handle` of the header's class): the backend
handle id and whether destruction closes the underlying connection. -/
structure FileOwn where
  m_file_id : Nat
  m_close_handle : Bool
deriving DecidableEq, Repr

/-- The header's default for the `close_handle` constructor argument. -/
def closeHandleDefault : Bool := false

/-- Modelled from the spec: the constructor `File(handle, close_handle)`
records the caller-supplied handle and the ownership flag. -/
def fileFromHandle (handle : Nat) (close_handle : Bool) : FileOwn :=
  { m_file_id := handle, m_close_handle := close_handle }

/-- The constructor `File(handle)` with the `close_handle` argument
omitted: the header defaults it to false. -/
def fileFromHandleDefault (handle : Nat) : FileOwn :=
  fileFromHandle handle closeHandleDefault

/-- Modelled from the spec: the destructor's effect on the backend's
connection table (which handle ids are open): it closes the handle's
connection exactly when the ownership flag is set, and otherwise detaches
without closing. -/
def destructorEffect (f : FileOwn) (connOpen : Nat → Bool) : Nat → Bool :=
  fun h => if f.m_close_handle && decide (h = f.m_file_id) then false else connOpen h

/-- The operations of the handle, for stating state-machine invariants. -/
inductive NXop where
  | makeGroup (name classTag : String) (openAfter : Bool)
  | openGroup (name classTag : String)
  | closeGroup
  | openData (name : String)
  | closeData
  | writeData (name : String) (t : NXnumtype) (values : List Rat) (dims : List Nat)
  | writeExtendibleData (name : String) (t : NXnumtype) (values : List Rat)
  | putSlab (vals : List Rat) (st sz : Nat)
  | initGroupDir
  | getNextEntry
deriving DecidableEq

/-- The state transition of each operation (projecting away returned
values). -/
def step : NXop → FileState → Except NXerror FileState
  | .makeGroup n c b, s => makeGroup s n c b
  | .openGroup n c, s => openGroup s n c
  | .closeGroup, s => closeGroup s
  | .openData n, s => openData s n
  | .closeData, s => closeData s
  | .writeData n t v d, s => writeData s n t v d
  | .writeExtendibleData n t v, s => writeExtendibleData s n t v
  | .putSlab v st sz, s => putSlab s v st sz
  | .initGroupDir, s => .ok (initGroupDir s)
  | .getNextEntry, s =>
    match getNextEntry s with
    | .error e => .error e
    | .ok (_, s1) => .ok s1

/-! ## Supporting lemmas about the tree operations -/

/-- Replacing the node bound to a present name makes lookup of that name
return the replacement. -/
theorem findChild_replaceChild : ∀ (cs : Children) (g : String) (nd : Node),
    (findChild cs g).isSome → findChild (replaceChild cs g nd) g = some nd
  | .nil, g, nd, h => by simp [findChild] at h
  | .cons nm nd0 rest, g, nd, h => by
    by_cases hg : nm = g
    · simp [replaceChild, findChild, hg]
    · simp [replaceChild, findChild, hg] at h ⊢
      exact findChild_replaceChild rest g nd h

/-- Appending a fresh name makes lookup of that name return the new node. -/
theorem findChild_appendChild : ∀ (cs : Children) (name : String) (nn : Node),
    hasChild cs name = false → findChild (appendChild cs name nn) name = some nn
  | .nil, name, nn, h => by simp [appendChild, findChild]
  | .cons nm nd0 rest, name, nn, h => by
    by_cases hg : nm = name
    · simp [hasChild, findChild, hg] at h
    · simp [hasChild, findChild, hg] at h
      simp [appendChild, findChild, hg]
      exact findChild_appendChild rest name nn (by simp [hasChild, h])

/-- A successful in-place modification at a resolvable path succeeds and is
visible to a subsequent lookup of the same path. -/
theorem lookupPath_modifyNodeAt (p : List String) :
    ∀ (f : Node → Except NXerror Node) (root n n2 : Node),
    lookupPath p root = some n → f n = .ok n2 →
    ∃ r, modifyNodeAt p f root = .ok r ∧ lookupPath p r = some n2 := by
  induction p with
  | nil =>
    intro f root n n2 hl hf
    simp [lookupPath] at hl
    subst hl
    exact ⟨n2, by simpa [modifyNodeAt], by simp [lookupPath]⟩
  | cons g rest ih =>
    intro f root n n2 hl hf
    match root with
    | .data t u d v => simp [lookupPath] at hl
    | .group c cs =>
      cases hfc : findChild cs g with
      | none => simp [lookupPath, hfc] at hl
      | some child =>
        simp [lookupPath, hfc] at hl
        obtain ⟨r0, hr0, hl0⟩ := ih f child n n2 hl hf
        refine ⟨.group c (replaceChild cs g r0), ?_, ?_⟩
        · simp [modifyNodeAt, hfc, hr0]
        · have hfr : findChild (replaceChild cs g r0) g = some r0 :=
            findChild_replaceChild cs g r0 (by simp [hfc])
          simp [lookupPath, hfr, hl0]

/-- Enumerating with enough fuel yields exactly the entries from the
cursor onwards and only moves the cursor. -/
theorem enumAll_drop (fuel : Nat) :
    ∀ (s : FileState) (es : List (String × String)),
    childEntries s = some es → es.length ≤ s.dirIndex + fuel →
    ∃ k, enumAll fuel s = (es.drop s.dirIndex, { s with dirIndex := k }) := by
  induction fuel with
  | zero =>
    intro s es hce hlen
    refine ⟨s.dirIndex, ?_⟩
    have hd : es.drop s.dirIndex = [] := List.drop_eq_nil_of_le (by omega)
    simp [enumAll, hd]
  | succ fuel ih =>
    intro s es hce hlen
    cases hge : es[s.dirIndex]? with
    | some e =>
      have hlt : s.dirIndex < es.length := by
        by_contra hcon
        push_neg at hcon
        rw [List.getElem?_eq_none hcon] at hge
        exact Option.noConfusion hge
      obtain ⟨k, hk⟩ := ih { s with dirIndex := s.dirIndex + 1 } es hce (by simp; omega)
      refine ⟨k, ?_⟩
      have hdrop : es.drop s.dirIndex = e :: es.drop (s.dirIndex + 1) := by
        rw [List.drop_eq_getElem_cons hlt]
        have hgg : es[s.dirIndex] = e := by
          have hq := List.getElem?_eq_getElem hlt
          rw [hge] at hq
          exact (Option.some.injEq _ _).mp hq.symm
        rw [hgg]
      simp [enumAll, getNextEntry, hce, hge, hk, hdrop]
    | none =>
      have hge2 : es.length ≤ s.dirIndex := by
        by_contra hcon
        push_neg at hcon
        rw [List.getElem?_eq_getElem hcon] at hge
        exact Option.noConfusion hge
      refine ⟨s.dirIndex, ?_⟩
      simp [enumAll, getNextEntry, hce, hge, List.drop_eq_nil_of_le hge2]

/-! ## Concrete states used as witnesses -/

/-- A handle positioned inside group "A" with dataset "x" open. -/
def navState : FileState :=
  { root := .group "NXroot"
      (.cons "A" (.group "NXentry"
        (.cons "x" (.data .INT32 false [1] [0]) .nil)) .nil)
    cwd := ["A"]
    openDataName := some "x"
    dirIndex := 0 }

/-- A 1-D extendible FLOAT64 dataset of initial length 4, open. -/
def slabState (a0 a1 a2 a3 : Rat) : FileState :=
  { root := .group "NXroot"
      (.cons "d" (.data .FLOAT64 true [4] [a0, a1, a2, a3]) .nil)
    cwd := []
    openDataName := some "d"
    dirIndex := 0 }

/-- The rational one half, given by its reduced fraction. -/
def oneHalf : Rat := ⟨1, 2, by decide, by decide⟩

/-- An open FLOAT64 dataset holding the fractional value one half. -/
def fracFloatState : FileState :=
  { root := .group "NXroot"
      (.cons "f" (.data .FLOAT64 false [1] [oneHalf]) .nil)
    cwd := []
    openDataName := some "f"
    dirIndex := 0 }

/-- An open UINT16 dataset holding the values 7 and 300. -/
def uint16State : FileState :=
  { root := .group "NXroot"
      (.cons "u" (.data .UINT16 false [2] (([7, 300] : List Int).map intVal)) .nil)
    cwd := []
    openDataName := some "u"
    dirIndex := 0 }

/-- The hierarchy with a FLOAT64 dataset at /entry/data and an INT32
dataset at /entry/monitor/counts. -/
def typeMapDemoTree : Node :=
  .group "NXroot"
    (.cons "entry" (.group "NXentry"
      (.cons "data" (.data .FLOAT64 false [3] [1, 2, 3])
        (.cons "monitor" (.group "NXmonitor"
          (.cons "counts" (.data .INT32 false [2] [5, 6]) .nil)) .nil))) .nil)

/-- Two sibling datasets "x" and "y" of identical shape and type. -/
def twinChildren : Children :=
  .cons "x" (.data .INT32 false [1] [0])
    (.cons "y" (.data .INT32 false [1] [0]) .nil)

/-- A handle with dataset "x" open. -/
def linkStateX : FileState :=
  { root := .group "NXroot" twinChildren
    cwd := []
    openDataName := some "x"
    dirIndex := 0 }

/-- The same handle with the sibling dataset "y" open instead. -/
def linkStateY : FileState :=
  { root := .group "NXroot" twinChildren
    cwd := []
    openDataName := some "y"
    dirIndex := 0 }

/-- A two-child group (one subgroup, one dataset), freshly opened. -/
def enumState : FileState :=
  openFile (.group "NXroot"
    (.cons "a" (.group "NXentry" .nil)
      (.cons "b" (.data .INT32 false [1] [0]) .nil)))

/-- An open UINT16 dataset, for the isDataInt witness. -/
def uintOpenState : FileState :=
  { root := .group "NXroot" (.cons "d" (.data .UINT16 false [1] [5]) .nil)
    cwd := []
    openDataName := some "d"
    dirIndex := 0 }

/-- A handle at the root of a one-dataset tree, nothing open. -/
def plainState : FileState :=
  openFile (.group "NXroot" (.cons "d" (.data .INT32 false [1] [0]) .nil))

/-! ## The claims -/

/-- Claim C1: for every handle with a dataset open (state
`AtGroupWithDataOpen`), `closeGroup()` fails with `InvalidState` and the
position is unchanged (a failing operation returns no new state); after
`closeData()` on the same handle the same `closeGroup()` succeeds and
`getPath()` afterwards returns the parent group's path. -/
theorem closeGroup_data_open (s : FileState) (d : String) (p : List String) (g : String)
    (hd : s.openDataName = some d) (hp : s.cwd = p ++ [g]) :
    closeGroup s = .error .InvalidState ∧
    ∃ s1 s2, closeData s = .ok s1 ∧ closeGroup s1 = .ok s2 ∧
      getPath s2 = "/" ++ String.intercalate "/" p := by
  refine ⟨by simp [closeGroup, hd], ?_⟩
  refine ⟨{ s with openDataName := none }, ?_⟩
  refine ⟨{ s with openDataName := none, cwd := (p ++ [g]).dropLast, dirIndex := 0 },
    ?_, ?_, ?_⟩
  · simp [closeData, hd]
  · simp [closeGroup, hp]
  · simp [getPath, List.dropLast_concat]

/-- Witness for C1: the scenario `openGroup("A","NXentry"); openData("x")`
realised concretely, with the parent path being the root. -/
theorem closeGroup_data_open_witness :
    closeGroup navState = .error .InvalidState ∧
    ∃ s1 s2, closeData navState = .ok s1 ∧ closeGroup s1 = .ok s2 ∧
      getPath s2 = "/" ++ String.intercalate "/" [] :=
  closeGroup_data_open navState "x" [] "A" rfl rfl

/-- Claim C2: for every storage type, every shape and every value,
writing the value as a dataset under the current group and then opening
and reading it back returns the value unchanged (values are stored
exactly, so integer equality is exact and float values see no
intermediate coercion). -/
theorem writeData_roundtrip (s : FileState) (name : String) (t : NXnumtype)
    (values : List Rat) (dims : List Nat) (c : String) (cs : Children)
    (hgrp : currentGroup s = some (.group c cs))
    (hfresh : hasChild cs name = false)
    (hnone : s.openDataName = none) :
    ∃ s1 s2, writeData s name t values dims = .ok s1 ∧
      openData s1 name = .ok s2 ∧ getData s2 = .ok values := by
  obtain ⟨r, hr, hlr⟩ := lookupPath_modifyNodeAt s.cwd
    (fun n =>
      match n with
      | .group c0 cs0 =>
        if hasChild cs0 name then .error .NameConflict
        else .ok (.group c0 (appendChild cs0 name (.data t false dims values)))
      | .data _ _ _ _ => .error .NotFound)
    s.root (.group c cs) (.group c (appendChild cs name (.data t false dims values)))
    hgrp (by simp [hfresh])
  have hfa : findChild (appendChild cs name (.data t false dims values)) name
      = some (.data t false dims values) := findChild_appendChild cs name _ hfresh
  refine ⟨{ s with root := r }, { s with root := r, openDataName := some name },
    ?_, ?_, ?_⟩
  · simp [writeData, hnone, insertChildAt, hr]
  · simp [openData, hnone, currentGroup, hlr, hfa]
  · simp [getData, openDatasetNode, currentGroup, hlr, hfa]

/-- Witness for C2: an INT32 round-trip of the 1-D value [3, 7] at the
root group. -/
theorem writeData_roundtrip_witness :
    ∃ s1 s2,
      writeData (openFile (.group "NXroot" .nil)) "x" .INT32 [3, 7] [2] = .ok s1 ∧
      openData s1 "x" = .ok s2 ∧ getData s2 = .ok [3, 7] :=
  writeData_roundtrip (openFile (.group "NXroot" .nil)) "x" .INT32 [3, 7] [2]
    "NXroot" .nil rfl rfl rfl

/-- Claim C3: on a 1-D extendible dataset of initial length 4, writing a
slab of 3 elements at offset 2 (growing the extent to 5), then a slab of
2 elements at offset 6 (growing the extent to 8), followed by a
whole-array read, yields an array of length 8 in which indices 2..4 hold
the first slab, 6..7 hold the second, indices 0 and 1 retain their prior
values and index 5 holds the default fill value. -/
theorem putSlab_extend_read (a0 a1 a2 a3 b0 b1 b2 c0 c1 : Rat) :
    ∃ s1 s2, putSlab (slabState a0 a1 a2 a3) [b0, b1, b2] 2 3 = .ok s1 ∧
      putSlab s1 [c0, c1] 6 2 = .ok s2 ∧
      getData s2 = .ok [a0, a1, b0, b1, b2, 0, c0, c1] :=
  ⟨_, _, rfl, rfl, rfl⟩

/-- Claim C4: `getDataCoerce` into an int vector fails with
`CoercionError` on a dataset of floating-point storage type holding
fractional values, and succeeds on a dataset of 16-bit unsigned storage
type, preserving every element value. -/
theorem getDataCoerceInt_spec (s1 s2 : FileState) (t : NXnumtype) (u1 u2 : Bool)
    (d1 d2 : List Nat) (vals : List Rat) (ints : List Int)
    (h1 : openDatasetNode s1 = some (.data t u1 d1 vals))
    (hfloat : t = .FLOAT32 ∨ t = .FLOAT64)
    (hfrac : ∃ q ∈ vals, q.den ≠ 1)
    (h2 : openDatasetNode s2 = some (.data .UINT16 u2 d2 (ints.map intVal))) :
    getDataCoerceInt s1 = .error .CoercionError ∧ getDataCoerceInt s2 = .ok ints := by
  constructor
  · rcases hfloat with h | h <;> subst h <;> simp [getDataCoerceInt, h1, intTypeAtMost32]
  · have hmap : List.map (fun q : Rat => q.num) (ints.map intVal) = ints := by
      rw [List.map_map]
      have hcomp : ((fun q : Rat => q.num) ∘ intVal) = fun i => i := by
        funext i
        simp [intVal, Function.comp, Rat.num_intCast]
      rw [hcomp, List.map_id']
    simp [getDataCoerceInt, h2, intTypeAtMost32, hmap]

/-- Witness for C4: a FLOAT64 dataset holding one half fails; a UINT16
dataset holding 7 and 300 succeeds value-preservingly. -/
theorem getDataCoerceInt_spec_witness :
    getDataCoerceInt fracFloatState = .error .CoercionError ∧
    getDataCoerceInt uint16State = .ok [7, 300] :=
  getDataCoerceInt_spec fracFloatState uint16State .FLOAT64 false false [1] [2]
    [oneHalf] [7, 300] rfl (Or.inr rfl)
    ⟨oneHalf, by decide, by decide⟩ rfl

/-- Claim C5: the type-map walk over the hierarchy holding exactly a
FLOAT64 dataset at /entry/data and an INT32 dataset at
/entry/monitor/counts produces exactly those two (type name, path)
entries; in general a dataset contributes its storage-type name keyed
pair at its full path, and a group walks its children in order (pre-order),
recursing into every child regardless of class tag. -/
theorem getTypeMap_spec :
    getTypeMap typeMapDemoTree =
      [("FLOAT64", "/entry/data"), ("INT32", "/entry/monitor/counts")] ∧
    (∀ (path : String) (t : NXnumtype) (u : Bool) (dims : List Nat) (vals : List Rat),
      walkFileForTypeMap path (.data t u dims vals) = [(typeName t, path)]) ∧
    (∀ (path cTag nm : String) (nd : Node) (rest : Children),
      walkFileForTypeMap path (.group cTag (.cons nm nd rest)) =
        walkFileForTypeMap (makeCurrentPath path nm) nd ++
          walkChildrenForTypeMap path rest) :=
  ⟨rfl, fun _ _ _ _ _ => rfl, fun _ _ _ _ _ => rfl⟩

/-- Claim C6: `sameID` is true exactly when the two link tokens refer to
the same underlying entity: a token compared with itself (two `getDataID`
calls on the same open dataset) is equal, and tokens of datasets at
different full paths compare unequal — the comparison only looks at the
referenced entity, never at shape or storage type. -/
theorem getDataID_sameID (s1 s2 : FileState) (l1 l2 : NXlink)
    (h1 : getDataID s1 = .ok l1) (h2 : getDataID s2 = .ok l2) :
    sameID l1 l1 = true ∧ (sameID l1 l2 = true ↔ getPath s1 = getPath s2) := by
  cases hs1 : s1.openDataName with
  | none => simp [getDataID, hs1] at h1
  | some nm1 =>
    cases hs2 : s2.openDataName with
    | none => simp [getDataID, hs2] at h2
    | some nm2 =>
      simp [getDataID, hs1] at h1
      simp [getDataID, hs2] at h2
      subst h1
      subst h2
      simp [sameID]

/-- Witness for C6: the two sibling datasets "x" and "y" of identical
shape and type; the token is self-equal, and cross-token equality reduces
to equality of the two full paths. -/
theorem getDataID_sameID_witness :
    sameID { targetPath := getPath linkStateX, linkType := 1 }
        { targetPath := getPath linkStateX, linkType := 1 } = true ∧
    (sameID { targetPath := getPath linkStateX, linkType := 1 }
        { targetPath := getPath linkStateY, linkType := 1 } = true ↔
      getPath linkStateX = getPath linkStateY) :=
  getDataID_sameID linkStateX linkStateY _ _ rfl rfl

/-- Claim C7: enumerating a fixed, unmodified group's children to
exhaustion, calling `initGroupDir()`, and enumerating again produces the
identical ordered sequence of (name, classTag) entries. -/
theorem enum_restart (s : FileState) (es : List (String × String)) (fuel : Nat)
    (hce : childEntries s = some es) (h0 : s.dirIndex = 0) (hfuel : es.length ≤ fuel) :
    (enumAll fuel s).1 = es ∧
    (enumAll fuel (initGroupDir (enumAll fuel s).2)).1 = (enumAll fuel s).1 := by
  obtain ⟨k, hk⟩ := enumAll_drop fuel s es hce (by omega)
  have h1 : (enumAll fuel s).1 = es := by rw [hk]; simp [h0]
  refine ⟨h1, ?_⟩
  have hce2 : childEntries (initGroupDir (enumAll fuel s).2) = some es := by
    rw [hk]; exact hce
  obtain ⟨k2, hk2⟩ := enumAll_drop fuel (initGroupDir (enumAll fuel s).2) es hce2
    (by simp [initGroupDir]; omega)
  rw [hk2, h1]
  simp [initGroupDir]

/-- Witness for C7: a group with one subgroup and one dataset, enumerated
twice with a restart in between. -/
theorem enum_restart_witness :
    (enumAll 2 enumState).1 = [("a", "NXentry"), ("b", "SDS")] ∧
    (enumAll 2 (initGroupDir (enumAll 2 enumState).2)).1 = (enumAll 2 enumState).1 :=
  enum_restart enumState [("a", "NXentry"), ("b", "SDS")] 2 rfl rfl (by decide)

/-- Claim C8: with a dataset open, `isDataInt()` answers true exactly for
the integer storage types of 32 bits or fewer (INT8, UINT8, INT16,
UINT16, INT32, UINT32), and in particular answers false for the 64-bit
integer and the floating-point storage types. -/
theorem isDataInt_spec (s : FileState) (t : NXnumtype) (u : Bool) (dims : List Nat)
    (vals : List Rat) (h : openDatasetNode s = some (.data t u dims vals)) :
    (isDataInt s = .ok true ↔
      (t = .INT8 ∨ t = .UINT8 ∨ t = .INT16 ∨ t = .UINT16 ∨ t = .INT32 ∨ t = .UINT32)) ∧
    ((t = .INT64 ∨ t = .UINT64 ∨ t = .FLOAT32 ∨ t = .FLOAT64) →
      isDataInt s = .ok false) := by
  have hv : isDataInt s = .ok (intTypeAtMost32 t) := by simp [isDataInt, h]
  rw [hv]
  cases t <;> simp [intTypeAtMost32]

/-- Witness for C8: an open UINT16 dataset, for which `isDataInt` answers
true. -/
theorem isDataInt_spec_witness : isDataInt uintOpenState = .ok true :=
  (isDataInt_spec uintOpenState .UINT16 false [1] [5] rfl).1.mpr
    (Or.inr (Or.inr (Or.inr (Or.inl rfl))))

/-- Claim C9: a `File` constructed from an existing backend handle with
the `close_handle` argument omitted records the ownership flag as false,
so its destruction detaches without closing the underlying connection;
only when `close_handle` is passed as true does destruction close the
connection. -/
theorem fileOwnership_spec (h : Nat) (conn : Nat → Bool) :
    (fileFromHandleDefault h).m_close_handle = false ∧
    destructorEffect (fileFromHandleDefault h) conn = conn ∧
    destructorEffect (fileFromHandle h true) conn h = false := by
  refine ⟨rfl, ?_, ?_⟩
  · funext x
    simp [destructorEffect, fileFromHandleDefault, fileFromHandle, closeHandleDefault]
  · simp [destructorEffect, fileFromHandle]

/-- Claim C10: `isDataSetOpen()` answers exactly whether the navigation
state currently has a dataset open: it reads that state directly, is
false at container open, true after every successful `openData`, false
after every successful `closeData`, and unchanged by every other
operation of the handle. -/
theorem isDataSetOpen_spec :
    (∀ root, isDataSetOpen (openFile root) = false) ∧
    (∀ s, isDataSetOpen s = s.openDataName.isSome) ∧
    (∀ s name s1, openData s name = .ok s1 → isDataSetOpen s1 = true) ∧
    (∀ s s1, closeData s = .ok s1 → isDataSetOpen s1 = false) ∧
    (∀ op s s1, step op s = .ok s1 → (∀ nm, op ≠ .openData nm) → op ≠ .closeData →
      isDataSetOpen s1 = isDataSetOpen s) := by
  refine ⟨fun _ => rfl, fun _ => rfl, ?_, ?_, ?_⟩
  · intro s name s1 h
    unfold openData at h
    split at h
    · cases h
    · split at h
      · split at h
        · cases h
          simp [isDataSetOpen]
        · cases h
        · cases h
      · cases h
  · intro s s1 h
    unfold closeData at h
    split at h
    · cases h
    · cases h
      simp [isDataSetOpen]
  · intro op s s1 h hnd hncd
    cases op with
    | openData nm => exact absurd rfl (hnd nm)
    | closeData => exact absurd rfl hncd
    | makeGroup n c b =>
      simp only [step] at h
      unfold makeGroup at h
      split at h
      · cases h
      · split at h
        · cases h
        · cases h
          simp [isDataSetOpen]
    | openGroup n c =>
      simp only [step] at h
      unfold openGroup at h
      split at h
      · split at h
        · split at h
          · cases h
            simp [isDataSetOpen]
          · cases h
        · cases h
        · cases h
      · cases h
    | closeGroup =>
      simp only [step] at h
      unfold closeGroup at h
      split at h
      · cases h
      · split at h
        · cases h
        · cases h
          simp [isDataSetOpen]
    | writeData n t v d =>
      simp only [step] at h
      unfold writeData at h
      split at h
      · cases h
      · split at h
        · cases h
        · cases h
          simp [isDataSetOpen]
    | writeExtendibleData n t v =>
      simp only [step] at h
      unfold writeExtendibleData at h
      split at h
      · cases h
      · split at h
        · cases h
        · cases h
          simp [isDataSetOpen]
    | putSlab v st sz =>
      simp only [step] at h
      unfold putSlab at h
      split at h
      · cases h
      · split at h
        · cases h
        · cases h
          simp [isDataSetOpen]
    | initGroupDir =>
      simp only [step] at h
      cases h
      simp [isDataSetOpen, initGroupDir]
    | getNextEntry =>
      simp only [step] at h
      split at h
      · cases h
      · cases h
        rename_i pr heq
        unfold getNextEntry at heq
        split at heq
        · cases heq
        · split at heq
          · cases heq
            simp [isDataSetOpen]
          · cases heq
            simp [isDataSetOpen]

/-- Witness for C10: after a successful `openData` on a fresh handle the
query answers true. -/
theorem isDataSetOpen_spec_witness :
    isDataSetOpen { plainState with openDataName := some "d" } = true :=
  isDataSetOpen_spec.2.2.1 plainState "d" _ rfl

end NeXus
